import Mathlib

/-
Verification of the geometry and interaction engine of sway-wallpaper-splitter.

The source is a single Python file.  Pixel coordinates arriving from the event
layer, placement offsets and the scale factor are modelled as rationals (the
Python code manipulates them with exact-looking arithmetic on floats; all the
claims below are about the algebra of that arithmetic), monitor geometry and
final pixel sizes as integers.
-/

namespace SwaySplit

/-- Python's `int()` conversion as applied in `Monitor.cut`: truncation of a
real number toward zero. -/
def pyInt (q : ℚ) : ℤ := if q < 0 then ⌈q⌉ else ⌊q⌋

/-- `Monitor`: one physical display, `dataclass Monitor` in the source. -/
structure Monitor where
  name : String
  x : ℤ
  y : ℤ
  width : ℤ
  height : ℤ
deriving DecidableEq

/-- `Monitor.cut`: the crop rectangle the source computes for this monitor,
given the finalized offsets.  `x = int(self.x + x)`, `y = int(self.y + y)`,
`crop = (x, y, x + self.width, y + self.height)`; the actual `img.crop` call
is external image I/O and only consumes this rectangle. -/
def Monitor.cut (m : Monitor) (xoff yoff : ℚ) : ℤ × ℤ × ℤ × ℤ :=
  let x := pyInt ((m.x : ℚ) + xoff)
  let y := pyInt ((m.y : ℚ) + yoff)
  (x, y, x + m.width, y + m.height)

/-- `Desktop`: ordered collection of monitors. -/
structure Desktop where
  monitors : List Monitor
deriving DecidableEq

/-- Python's `max` over a generator, as used by `Desktop.width` and
`Desktop.height`.  On an empty list Python raises `ValueError`; the layout
invariant (at least one monitor) makes that unreachable, and the `[]` branch
here is junk. -/
def maxList : List ℤ → ℤ
  | [] => 0
  | a :: t => t.foldl max a

/-- `Desktop.width`: `max(m.x + m.width for m in self.monitors)`. -/
def Desktop.width (d : Desktop) : ℤ :=
  maxList (d.monitors.map fun m => m.x + m.width)

/-- `Desktop.height`: `max(m.y + m.height for m in self.monitors)`. -/
def Desktop.height (d : Desktop) : ℤ :=
  maxList (d.monitors.map fun m => m.y + m.height)

/-- `ScaleMode` enum of the source. -/
inductive ScaleMode
  | ORIGINAL
  | WIDTH
  | HEIGHT
  | FREE
deriving DecidableEq

/-- Pen colors picked by `paintEvent`; per the rendering contract
WHITE = OK, ORANGE = OVER_ZOOM, RED = UNDER_COVERAGE. -/
inductive Color
  | WHITE
  | RED
  | ORANGE
deriving DecidableEq

/-- Mouse buttons delivered by the event layer. -/
inductive MouseButton
  | Left
  | Right
deriving DecidableEq

/-- The mutable placement state held by the `Wallpaper` widget: scale,
offsets, scale mode, the source image's pixel dimensions, and the two drag
anchors (`starting_loc`, `last_loc`). -/
structure Wallpaper where
  original_width : ℤ
  original_height : ℤ
  wp_scale : ℚ
  wpx : ℚ
  wpy : ℚ
  wp_mode : ScaleMode
  starting_loc : Option (ℚ × ℚ)
  last_loc : Option (ℚ × ℚ)
deriving DecidableEq

/-- The validity classification computed inside `paintEvent`: RED when
`wpx > 0 or wpy > 0 or wpx + original_width*wp_scale < desktop.width or
wpy + original_height*wp_scale < desktop.height`, else ORANGE when
`wp_scale > 1`, else WHITE. -/
def paintEventPen (w : Wallpaper) (d : Desktop) : Color :=
  if w.wpx > 0 ∨ w.wpy > 0
      ∨ w.wpx + (w.original_width : ℚ) * w.wp_scale < (d.width : ℚ)
      ∨ w.wpy + (w.original_height : ℚ) * w.wp_scale < (d.height : ℚ) then
    Color.RED
  else if w.wp_scale > 1 then
    Color.ORANGE
  else
    Color.WHITE

/-- `wheelEvent`: `direction = event.angleDelta().y()`; scale grows by 0.05
when positive, shrinks by 0.05 when negative, and the mode is set to FREE
unconditionally. -/
def wheelEvent (w : Wallpaper) (direction : ℤ) : Wallpaper :=
  let s1 := if direction > 0 then w.wp_scale + 5/100 else w.wp_scale
  let s2 := if direction < 0 then s1 - 5/100 else s1
  { w with wp_scale := s2, wp_mode := ScaleMode.FREE }

/-- Left-button branch of `mousePressEvent`: record the pointer position
divided by the display scale in both drag anchors. -/
def mousePressLeft (w : Wallpaper) (px py display_scale : ℚ) : Wallpaper :=
  let loc := (px / display_scale, py / display_scale)
  { w with starting_loc := some loc, last_loc := some loc }

/-- Right-button branch of `mousePressEvent`: cycle the scale mode.
ORIGINAL goes to WIDTH with scale `desktop.width / original_width`, WIDTH
goes to HEIGHT with scale `desktop.height / original_height`, and everything
else (HEIGHT as well as FREE) goes to ORIGINAL with scale 1. -/
def mousePressRight (w : Wallpaper) (d : Desktop) : Wallpaper :=
  if w.wp_mode = ScaleMode.ORIGINAL then
    { w with wp_mode := ScaleMode.WIDTH,
             wp_scale := (d.width : ℚ) / (w.original_width : ℚ) }
  else if w.wp_mode = ScaleMode.WIDTH then
    { w with wp_mode := ScaleMode.HEIGHT,
             wp_scale := (d.height : ℚ) / (w.original_height : ℚ) }
  else
    { w with wp_mode := ScaleMode.ORIGINAL, wp_scale := 1 }

/-- Three right-button presses in a row. -/
def cycle3 (w : Wallpaper) (d : Desktop) : Wallpaper :=
  mousePressRight (mousePressRight (mousePressRight w d) d) d

/-- In `mouseReleaseEvent` the source tests
`if event.button == QtCore.Qt.MouseButton.LeftButton:` without calling the
method: `event.button` is a bound-method object, and in Python a bound method
never compares equal to an enum member, so the test is constantly false. -/
def buttonMethodEqLeft (_b : MouseButton) : Bool := false

/-- `mouseReleaseEvent`: would clear both drag anchors when its test held,
but the test (see `buttonMethodEqLeft`) never does. -/
def mouseReleaseEvent (w : Wallpaper) (b : MouseButton) : Wallpaper :=
  if buttonMethodEqLeft b then
    { w with starting_loc := none, last_loc := none }
  else
    w

/-- `mouseMoveEvent`: early-return when the left button is not held; raise
`RuntimeError` when either drag anchor is unset; otherwise with Shift held
compare `|cx - ox|` against `|cy - oy|` measured from `starting_loc` and add
the incremental delta (current minus `last_loc`) to the dominant axis only,
without Shift add it to both axes; in either case set `last_loc` to the
current point. -/
def mouseMoveEvent (w : Wallpaper) (buttons_left : Bool)
    (px py display_scale : ℚ) (shift : Bool) : Except String Wallpaper :=
  if ¬ buttons_left then
    Except.ok w
  else
    match w.starting_loc, w.last_loc with
    | some (ox, oy), some (lx, ly) =>
      let cx := px / display_scale
      let cy := py / display_scale
      if shift then
        let dx := |cx - ox|
        let dy := |cy - oy|
        if dx > dy then
          Except.ok { w with wpx := w.wpx + (cx - lx), last_loc := some (cx, cy) }
        else
          Except.ok { w with wpy := w.wpy + (cy - ly), last_loc := some (cx, cy) }
      else
        Except.ok { w with wpx := w.wpx + (cx - lx), wpy := w.wpy + (cy - ly),
                           last_loc := some (cx, cy) }
    | _, _ => Except.error "Did not determine mouse pointer position"

/-- The result bag filled by `keyPressEvent` on the space key. -/
structure Results where
  size : ℤ × ℤ
  xoff : ℚ
  yoff : ℚ
deriving DecidableEq

/-- Space-key branch of `keyPressEvent` (the finalize step):
`size = (ceil(original_width*wp_scale), ceil(original_height*wp_scale))`,
`xoff = -wpx`, `yoff = -wpy`. -/
def keyPressSpace (w : Wallpaper) : Results :=
  { size := (⌈(w.original_width : ℚ) * w.wp_scale⌉,
             ⌈(w.original_height : ℚ) * w.wp_scale⌉),
    xoff := -w.wpx,
    yoff := -w.wpy }

/-- The commit loop of `main`: for each monitor, the crop rectangle cut out
of the resized image.  The source performs `monitor.cut(scaled, xoff, yoff)`
unconditionally for every monitor and never checks bounds. -/
def mainCommit (d : Desktop) (xoff yoff : ℚ) :
    List (String × (ℤ × ℤ × ℤ × ℤ)) :=
  d.monitors.map fun m => (m.name, m.cut xoff yoff)

/-- A crop rectangle lies inside an image of size `fw × fh` (rectangles are
half-open on the right/bottom edge). -/
def inBounds (r : ℤ × ℤ × ℤ × ℤ) (fw fh : ℤ) : Prop :=
  0 ≤ r.1 ∧ 0 ≤ r.2.1 ∧ r.2.2.1 ≤ fw ∧ r.2.2.2 ≤ fh

instance (r : ℤ × ℤ × ℤ × ℤ) (fw fh : ℤ) : Decidable (inBounds r fw fh) := by
  unfold inBounds
  infer_instance

/-- Modelled from the spec: the CropResolver of §4.4 fails with
`OutOfBoundsCrop` when any crop rectangle falls partially or fully outside
the resized image bounds, and otherwise succeeds with the per-monitor crops.
The source has no such check (its commit loop is `mainCommit`). -/
def cropResolverSpec (d : Desktop) (xoff yoff : ℚ) (fw fh : ℤ) :
    Except String (List (String × (ℤ × ℤ × ℤ × ℤ))) :=
  let crops := mainCommit d xoff yoff
  if crops.all fun c => decide (inBounds c.2 fw fh) then
    Except.ok crops
  else
    Except.error "OutOfBoundsCrop"

/-- The scale value that entering a given mode via the fit cycle assigns
(§4.2): 1 for ORIGINAL, width fit for WIDTH, height fit for HEIGHT; FREE is
never entered by the cycle and gets the junk value 1. -/
def fitScale (mode : ScaleMode) (d : Desktop) (sw sh : ℤ) : ℚ :=
  match mode with
  | ScaleMode.ORIGINAL => 1
  | ScaleMode.WIDTH => (d.width : ℚ) / (sw : ℚ)
  | ScaleMode.HEIGHT => (d.height : ℚ) / (sh : ℚ)
  | ScaleMode.FREE => 1

/-- The successor of a mode on the spec's wrapping fit 3-cycle. -/
def nextMode : ScaleMode → ScaleMode
  | ScaleMode.ORIGINAL => ScaleMode.WIDTH
  | ScaleMode.WIDTH => ScaleMode.HEIGHT
  | _ => ScaleMode.ORIGINAL

/-- A single 100×100 monitor at the origin. -/
def mon0 : Monitor := ⟨"A", 0, 0, 100, 100⟩

/-- A desktop consisting of just `mon0` (bounding box 100×100). -/
def desk1 : Desktop := ⟨[mon0]⟩

/-- Claim C1: the pen chosen by paintEvent (RED = UNDER_COVERAGE,
ORANGE = OVER_ZOOM, WHITE = OK) is RED exactly when `wpx>0 ∨ wpy>0 ∨
wpx + original_width*wp_scale < desktop.width ∨ wpy +
original_height*wp_scale < desktop.height`, ORANGE otherwise exactly when
`wp_scale > 1`, and WHITE otherwise; equivalently it is WHITE iff the scaled
image rectangle contains the desktop bounding rectangle on all four edges
and `wp_scale ≤ 1`. -/
theorem C1_validity_classifier (w : Wallpaper) (d : Desktop) :
    (paintEventPen w d = Color.RED ↔
      (0 < w.wpx ∨ 0 < w.wpy
        ∨ w.wpx + (w.original_width : ℚ) * w.wp_scale < (d.width : ℚ)
        ∨ w.wpy + (w.original_height : ℚ) * w.wp_scale < (d.height : ℚ)))
    ∧ (paintEventPen w d = Color.ORANGE ↔
      (¬ (0 < w.wpx ∨ 0 < w.wpy
          ∨ w.wpx + (w.original_width : ℚ) * w.wp_scale < (d.width : ℚ)
          ∨ w.wpy + (w.original_height : ℚ) * w.wp_scale < (d.height : ℚ))
        ∧ 1 < w.wp_scale))
    ∧ (paintEventPen w d = Color.WHITE ↔
      (w.wpx ≤ 0 ∧ w.wpy ≤ 0
        ∧ (d.width : ℚ) ≤ w.wpx + (w.original_width : ℚ) * w.wp_scale
        ∧ (d.height : ℚ) ≤ w.wpy + (w.original_height : ℚ) * w.wp_scale
        ∧ w.wp_scale ≤ 1)) := by
  have hcon : (¬ (0 < w.wpx ∨ 0 < w.wpy
      ∨ w.wpx + (w.original_width : ℚ) * w.wp_scale < (d.width : ℚ)
      ∨ w.wpy + (w.original_height : ℚ) * w.wp_scale < (d.height : ℚ)))
      ↔ (w.wpx ≤ 0 ∧ w.wpy ≤ 0
        ∧ (d.width : ℚ) ≤ w.wpx + (w.original_width : ℚ) * w.wp_scale
        ∧ (d.height : ℚ) ≤ w.wpy + (w.original_height : ℚ) * w.wp_scale) := by
    push_neg
    exact Iff.rfl
  unfold paintEventPen
  split_ifs with h1 h2
  · exact ⟨iff_of_true rfl h1,
      iff_of_false (by simp) (fun hc => hc.1 h1),
      iff_of_false (by simp)
        (fun hc => hcon.mpr ⟨hc.1, hc.2.1, hc.2.2.1, hc.2.2.2.1⟩ h1)⟩
  · exact ⟨iff_of_false (by simp) h1,
      iff_of_true rfl ⟨h1, h2⟩,
      iff_of_false (by simp) (fun hc => not_lt.mpr hc.2.2.2.2 h2)⟩
  · have c4 := hcon.mp h1
    exact ⟨iff_of_false (by simp) h1,
      iff_of_false (by simp) (fun hc => h2 hc.2),
      iff_of_true rfl ⟨c4.1, c4.2.1, c4.2.2.1, c4.2.2.2, not_lt.mp h2⟩⟩

/-- Claim C2 fails as stated: with `xoff = 1/2` on a monitor at the origin,
the crop's left edge is `int(0 + 1/2) = 0`, not `m.x + xoff = 1/2` — the
source truncates `m.x + xoff` with `int()` before building the rectangle. -/
theorem C2_counterexample :
    ¬ (((mon0.cut (1/2) 0).1 : ℚ) = (mon0.x : ℚ) + 1/2) := by
  norm_num [Monitor.cut, pyInt, mon0]

/-- Claim C2 (amended): the crop rectangle is built from the truncated
coordinates `int(m.x + xoff)`, `int(m.y + yoff)`; whenever `xoff` and `yoff`
are integers the truncation is the identity and the crop is exactly
`(m.x + xoff, m.y + yoff, m.x + xoff + m.width, m.y + yoff + m.height)`; in
particular with `xoff = yoff = 0` each monitor's crop is its own rectangle. -/
theorem C2_crop_formula (m : Monitor) (xoff yoff : ℤ) :
    m.cut (xoff : ℚ) (yoff : ℚ)
      = (m.x + xoff, m.y + yoff, m.x + xoff + m.width, m.y + yoff + m.height)
    ∧ m.cut 0 0 = (m.x, m.y, m.x + m.width, m.y + m.height) := by
  have hp : ∀ n : ℤ, pyInt ((n : ℤ) : ℚ) = n := by
    intro n
    unfold pyInt
    split <;> simp
  refine ⟨?_, ?_⟩
  · have h1 : (m.x : ℚ) + (xoff : ℚ) = ((m.x + xoff : ℤ) : ℚ) := by push_cast; ring
    have h2 : (m.y : ℚ) + (yoff : ℚ) = ((m.y + yoff : ℤ) : ℚ) := by push_cast; ring
    unfold Monitor.cut
    rw [h1, h2, hp, hp]
  · unfold Monitor.cut
    rw [add_zero, add_zero, hp, hp]

/-- Claim C3: the space-key finalize step returns size
`(ceil(original_width*wp_scale), ceil(original_height*wp_scale))` and
offsets that are exactly the negations of the placement offsets. -/
theorem C3_finalize (w : Wallpaper) :
    (keyPressSpace w).xoff = -w.wpx
    ∧ (keyPressSpace w).yoff = -w.wpy
    ∧ (keyPressSpace w).size
        = (⌈(w.original_width : ℚ) * w.wp_scale⌉,
           ⌈(w.original_height : ℚ) * w.wp_scale⌉) :=
  ⟨rfl, rfl, rfl⟩

/-- Claim C4 fails as stated: with the single 100×100 monitor, offsets
`(50, 0)` and final size 100×100, the crop rectangle `(50, 0, 150, 100)`
leaves the resized image, yet the source's commit loop produces it anyway —
there is no error path; only the spec-modelled resolver reports
OutOfBoundsCrop there. -/
theorem C4_counterexample :
    (∃ c ∈ mainCommit desk1 50 0, ¬ inBounds c.2 100 100)
    ∧ mainCommit desk1 50 0 = [("A", (50, 0, 150, 100))]
    ∧ cropResolverSpec desk1 50 0 100 100 = Except.error "OutOfBoundsCrop" := by
  have hm : mainCommit desk1 50 0 = [("A", (50, 0, 150, 100))] := by
    norm_num [mainCommit, desk1, mon0, Monitor.cut, pyInt]
  refine ⟨⟨("A", (50, 0, 150, 100)), by rw [hm]; exact List.mem_singleton.mpr rfl,
      by decide⟩, hm, ?_⟩
  unfold cropResolverSpec
  rw [hm]
  norm_num [inBounds]

/-- Claim C4 (amended): the source's commit loop is total — it cuts every
monitor's rectangle unconditionally and never raises OutOfBoundsCrop — and
whenever every crop rectangle lies within the resized image bounds the
spec's bounds-checking resolver succeeds with exactly the source's crops. -/
theorem C4_in_bounds_success (d : Desktop) (xoff yoff : ℚ) (fw fh : ℤ)
    (h : ∀ c ∈ mainCommit d xoff yoff, inBounds c.2 fw fh) :
    cropResolverSpec d xoff yoff fw fh = Except.ok (mainCommit d xoff yoff) := by
  have hall : ((mainCommit d xoff yoff).all
      fun c => decide (inBounds c.2 fw fh)) = true := by
    rw [List.all_eq_true]
    intro c hc
    exact decide_eq_true (h c hc)
  unfold cropResolverSpec
  simp only [hall, if_true]

/-- Witness for C4 (amended) at the single-monitor desktop with zero
offsets and final size 100×100: every crop is in bounds and the resolver
succeeds with the source's crops. -/
theorem C4_in_bounds_success_witness :
    (∀ c ∈ mainCommit desk1 0 0, inBounds c.2 100 100)
    ∧ cropResolverSpec desk1 0 0 100 100 = Except.ok (mainCommit desk1 0 0) := by
  have hm : mainCommit desk1 0 0 = [("A", (0, 0, 100, 100))] := by
    norm_num [mainCommit, desk1, mon0, Monitor.cut, pyInt]
  have hb : ∀ c ∈ mainCommit desk1 0 0, inBounds c.2 100 100 := by
    rw [hm]
    intro c hc
    rw [List.mem_singleton] at hc
    subst hc
    decide
  exact ⟨hb, C4_in_bounds_success desk1 0 0 100 100 hb⟩

/-- A wallpaper state with a drag in progress: both anchors at (100, 100). -/
def w0 : Wallpaper :=
  { original_width := 3840, original_height := 2160, wp_scale := 1,
    wpx := 0, wpy := 0, wp_mode := ScaleMode.ORIGINAL,
    starting_loc := some (100, 100), last_loc := some (100, 100) }

/-- Claim C5: with axis lock (Shift) held during an in-progress drag,
`mouseMoveEvent` compares `|dx|` against `|dy|` measured from the original
drag-start anchor; when x dominates only `wpx` gains the incremental delta
(current minus last anchor) with `wpy` untouched, symmetrically when y
dominates; and every successful event sets `last_loc` to the current
point. -/
theorem C5_axis_lock (w : Wallpaper) (ox oy lx ly px py ds : ℚ)
    (hs : w.starting_loc = some (ox, oy)) (hl : w.last_loc = some (lx, ly)) :
    (|px / ds - ox| > |py / ds - oy| →
      mouseMoveEvent w true px py ds true =
        Except.ok { w with wpx := w.wpx + (px / ds - lx),
                           last_loc := some (px / ds, py / ds) })
    ∧ (|py / ds - oy| > |px / ds - ox| →
      mouseMoveEvent w true px py ds true =
        Except.ok { w with wpy := w.wpy + (py / ds - ly),
                           last_loc := some (px / ds, py / ds) })
    ∧ (∀ r, mouseMoveEvent w true px py ds true = Except.ok r →
        r.last_loc = some (px / ds, py / ds)) := by
  have hred : mouseMoveEvent w true px py ds true =
      (if |px / ds - ox| > |py / ds - oy| then
        Except.ok { w with wpx := w.wpx + (px / ds - lx),
                           last_loc := some (px / ds, py / ds) }
      else
        Except.ok { w with wpy := w.wpy + (py / ds - ly),
                           last_loc := some (px / ds, py / ds) }) := by
    unfold mouseMoveEvent
    rw [hs, hl]
    norm_num
  refine ⟨fun hgt => by rw [hred, if_pos hgt],
    fun hgt => by rw [hred, if_neg (lt_asymm hgt)], ?_⟩
  intro r hr
  rw [hred] at hr
  split_ifs at hr <;>
    · rw [← Except.ok.inj hr]

/-- Witness for C5 at the spec's scenario: drag-start and last anchor at
(100, 100), current pointer (130, 104), display scale 1; x dominates
(|30| > |4|), so only `wpx` changes, by the incremental 30. -/
theorem C5_axis_lock_witness :
    mouseMoveEvent w0 true 130 104 1 true =
      Except.ok { w0 with wpx := w0.wpx + (130 / 1 - 100),
                          last_loc := some (130 / 1, 104 / 1) } :=
  (C5_axis_lock w0 100 100 100 100 130 104 1 rfl rfl).1 (by norm_num)

/-- A free-mode state whose scale is one scroll tick above zero. -/
def wLow : Wallpaper :=
  { original_width := 200, original_height := 100, wp_scale := 1/20,
    wpx := 0, wpy := 0, wp_mode := ScaleMode.FREE,
    starting_loc := none, last_loc := none }

/-- Claim C7 fails as stated: from the strictly positive scale 1/20 a
single scroll-down tick drives the scale to exactly 0 — the source applies
no clamp, so `scale > 0` is not an invariant of `wheelEvent`. -/
theorem C7_counterexample :
    0 < wLow.wp_scale ∧ ¬ 0 < (wheelEvent wLow (-1)).wp_scale := by
  constructor
  · norm_num [wLow]
  · norm_num [wheelEvent, wLow]

/-- Claim C7 (amended): `wheelEvent` adds 0.05 to the scale when the scroll
delta is positive, subtracts 0.05 when it is negative and leaves it alone
when it is zero, always forcing FREE mode; no clamp is applied, and after
`n` scroll-down ticks the scale is exactly the original minus `n * 0.05`,
which reaches zero and below. -/
theorem C7_scroll (w : Wallpaper) (delta : ℤ) (n : ℕ) :
    (wheelEvent w delta).wp_scale =
      (if 0 < delta then w.wp_scale + 5/100
       else if delta < 0 then w.wp_scale - 5/100 else w.wp_scale)
    ∧ (wheelEvent w delta).wp_mode = ScaleMode.FREE
    ∧ ((fun s => wheelEvent s (-1))^[n] w).wp_scale = w.wp_scale - n * (5/100) := by
  refine ⟨?_, rfl, ?_⟩
  · unfold wheelEvent
    rcases lt_trichotomy delta 0 with h | h | h
    · simp [h, lt_asymm h]
    · subst h
      simp
    · simp [h, lt_asymm h]
  · induction n with
    | zero => simp
    | succ k ih =>
      have hstep : ∀ s : Wallpaper,
          (wheelEvent s (-1)).wp_scale = s.wp_scale - 5/100 := by
        intro s
        unfold wheelEvent
        norm_num
      rw [Function.iterate_succ_apply', hstep, ih]
      push_cast
      ring

lemma foldl_max_init_le (l : List ℤ) (a : ℤ) : a ≤ l.foldl max a := by
  induction l generalizing a with
  | nil => exact le_refl a
  | cons b t ih => exact le_trans (le_max_left a b) (ih (max a b))

lemma le_foldl_max (l : List ℤ) (a b : ℤ) (hb : b ∈ l) : b ≤ l.foldl max a := by
  induction l generalizing a with
  | nil => cases hb
  | cons c t ih =>
    rcases List.mem_cons.mp hb with h | h
    · subst h
      exact le_trans (le_max_right a b) (foldl_max_init_le t (max a b))
    · exact ih (max a c) h

lemma foldl_max_eq_init_or_mem (l : List ℤ) (a : ℤ) :
    l.foldl max a = a ∨ l.foldl max a ∈ l := by
  induction l generalizing a with
  | nil => exact Or.inl rfl
  | cons c t ih =>
    rcases ih (max a c) with h | h
    · rcases max_choice a c with hh | hh
      · exact Or.inl (by rw [List.foldl_cons, h, hh])
      · refine Or.inr ?_
        rw [List.foldl_cons, h, hh]
        exact List.mem_cons_self c t
    · exact Or.inr (List.mem_cons_of_mem c h)

lemma le_maxList (l : List ℤ) (b : ℤ) (hb : b ∈ l) : b ≤ maxList l := by
  cases l with
  | nil => cases hb
  | cons a t =>
    rcases List.mem_cons.mp hb with h | h
    · subst h
      exact foldl_max_init_le t b
    · exact le_foldl_max t a b h

lemma maxList_mem (l : List ℤ) (hl : l ≠ []) : maxList l ∈ l := by
  cases l with
  | nil => exact absurd rfl hl
  | cons a t =>
    rcases foldl_max_eq_init_or_mem t a with h | h
    · refine List.mem_cons.mpr (Or.inl ?_)
      rw [maxList, h]
    · exact List.mem_cons_of_mem a h

/-- Claim C8: for a desktop with at least one monitor, the derived width is
the maximum of `m.x + m.width` and the derived height the maximum of
`m.y + m.height` over all monitors — an upper bound that is attained —
whatever the monitor set (overlapping or non-contiguous included). -/
theorem C8_desktop_size (d : Desktop) (m : Monitor) (ms : List Monitor)
    (h : d.monitors = m :: ms) :
    ((∀ mm ∈ d.monitors, mm.x + mm.width ≤ d.width)
      ∧ ∃ mm ∈ d.monitors, d.width = mm.x + mm.width)
    ∧ ((∀ mm ∈ d.monitors, mm.y + mm.height ≤ d.height)
      ∧ ∃ mm ∈ d.monitors, d.height = mm.y + mm.height) := by
  have key : ∀ f : Monitor → ℤ,
      (∀ mm ∈ d.monitors, f mm ≤ maxList (d.monitors.map f))
      ∧ ∃ mm ∈ d.monitors, maxList (d.monitors.map f) = f mm := by
    intro f
    constructor
    · intro mm hmm
      exact le_maxList _ _ (List.mem_map_of_mem f hmm)
    · have hmem := maxList_mem (d.monitors.map f) (by rw [h]; simp)
      rcases List.mem_map.mp hmem with ⟨mm, hmm, hfe⟩
      exact ⟨mm, hmm, hfe.symm⟩
  exact ⟨⟨(key _).1, (key _).2⟩, ⟨(key _).1, (key _).2⟩⟩

/-- First monitor of the spec's side-by-side scenario. -/
def monA : Monitor := ⟨"A", 0, 0, 1920, 1080⟩

/-- Second monitor of the spec's side-by-side scenario. -/
def monB : Monitor := ⟨"B", 1920, 0, 1920, 1080⟩

/-- Two 1920×1080 monitors side by side (bounding box 3840×1080). -/
def desk2 : Desktop := ⟨[monA, monB]⟩

/-- Witness for C8 at the two-monitor desktop. -/
theorem C8_desktop_size_witness :
    ((∀ mm ∈ desk2.monitors, mm.x + mm.width ≤ desk2.width)
      ∧ ∃ mm ∈ desk2.monitors, desk2.width = mm.x + mm.width)
    ∧ ((∀ mm ∈ desk2.monitors, mm.y + mm.height ≤ desk2.height)
      ∧ ∃ mm ∈ desk2.monitors, desk2.height = mm.y + mm.height) :=
  C8_desktop_size desk2 monA [monB] rfl

/-- Claim C9 describes the intent, but the code has a slip: the release
handler tests `event.button == LeftButton` without calling the method, a
comparison that is always false, so `mouseReleaseEvent` never clears the
drag anchors — it is the identity on the state, and after a left-button
release during the drag of `w0` both anchors are still set. -/
theorem C9_buggy_release :
    (∀ (w : Wallpaper) (b : MouseButton), mouseReleaseEvent w b = w)
    ∧ (mouseReleaseEvent w0 MouseButton.Left).starting_loc = some (100, 100)
    ∧ (mouseReleaseEvent w0 MouseButton.Left).last_loc = some (100, 100) :=
  ⟨fun _ _ => rfl, rfl, rfl⟩

/-- A free-mode state with scale 2 over a 200×100 source. -/
def wFree : Wallpaper :=
  { original_width := 200, original_height := 100, wp_scale := 2,
    wpx := 0, wpy := 0, wp_mode := ScaleMode.FREE,
    starting_loc := none, last_loc := none }

/-- An ORIGINAL-mode state whose scale is not the ORIGINAL fit value 1. -/
def wOrig2 : Wallpaper :=
  { original_width := 200, original_height := 100, wp_scale := 2,
    wpx := 0, wpy := 0, wp_mode := ScaleMode.ORIGINAL,
    starting_loc := none, last_loc := none }

/-- Claim C6 fails as stated over arbitrary placement states, in two ways:
starting in FREE mode with scale 2, three right-button cycles end in HEIGHT
mode (the mode does not return); and starting in ORIGINAL mode with scale 2,
three cycles return the mode but set scale to ORIGINAL's fit value 1, not
to the starting 2. -/
theorem C6_counterexample :
    (¬ ((cycle3 wFree desk1).wp_mode = wFree.wp_mode
      ∧ (cycle3 wFree desk1).wp_scale = wFree.wp_scale))
    ∧ ¬ ((cycle3 wOrig2 desk1).wp_mode = wOrig2.wp_mode
      ∧ (cycle3 wOrig2 desk1).wp_scale = wOrig2.wp_scale) := by
  constructor
  · intro hc
    have hm : (cycle3 wFree desk1).wp_mode = ScaleMode.HEIGHT := by
      simp [cycle3, mousePressRight, wFree]
    rw [hm] at hc
    exact absurd hc.1 (by decide)
  · intro hc
    have hm : (cycle3 wOrig2 desk1).wp_scale = 1 := by
      simp [cycle3, mousePressRight, wOrig2]
    rw [hm] at hc
    have : (1 : ℚ) = 2 := hc.2
    norm_num at this

/-- Claim C6 (amended): for a state whose mode is on the fit cycle (not
FREE), one right-button press advances the mode along ORIGINAL → WIDTH →
HEIGHT → ORIGINAL and sets the scale to the entered mode's fit value
(1, width/source_width, height/source_height); three presses return the
mode to its start and set the scale to the starting mode's fit value, so
mode and scale both return to their starting values exactly when the scale
started at that fit value. -/
theorem C6_cycle (w : Wallpaper) (d : Desktop) (h : w.wp_mode ≠ ScaleMode.FREE) :
    ((mousePressRight w d).wp_mode = nextMode w.wp_mode
      ∧ (mousePressRight w d).wp_scale
          = fitScale (nextMode w.wp_mode) d w.original_width w.original_height)
    ∧ (cycle3 w d).wp_mode = w.wp_mode
    ∧ (cycle3 w d).wp_scale = fitScale w.wp_mode d w.original_width w.original_height
    ∧ (w.wp_scale = fitScale w.wp_mode d w.original_width w.original_height →
        (cycle3 w d).wp_scale = w.wp_scale) := by
  cases hmode : w.wp_mode with
  | ORIGINAL =>
    refine ⟨⟨?_, ?_⟩, ?_, ?_, fun hs => ?_⟩ <;>
      simp_all [cycle3, mousePressRight, nextMode, fitScale]
  | WIDTH =>
    refine ⟨⟨?_, ?_⟩, ?_, ?_, fun hs => ?_⟩ <;>
      simp_all [cycle3, mousePressRight, nextMode, fitScale]
  | HEIGHT =>
    refine ⟨⟨?_, ?_⟩, ?_, ?_, fun hs => ?_⟩ <;>
      simp_all [cycle3, mousePressRight, nextMode, fitScale]
  | FREE => exact absurd hmode h

/-- An ORIGINAL-mode state with scale 1 over a 200×100 source. -/
def wOrig : Wallpaper :=
  { original_width := 200, original_height := 100, wp_scale := 1,
    wpx := 0, wpy := 0, wp_mode := ScaleMode.ORIGINAL,
    starting_loc := none, last_loc := none }

/-- Witness for C6 (amended) at an ORIGINAL-mode state with scale 1. -/
theorem C6_cycle_witness :
    ((mousePressRight wOrig desk1).wp_mode = nextMode wOrig.wp_mode
      ∧ (mousePressRight wOrig desk1).wp_scale
          = fitScale (nextMode wOrig.wp_mode) desk1
              wOrig.original_width wOrig.original_height)
    ∧ (cycle3 wOrig desk1).wp_mode = wOrig.wp_mode
    ∧ (cycle3 wOrig desk1).wp_scale
        = fitScale wOrig.wp_mode desk1 wOrig.original_width wOrig.original_height
    ∧ (wOrig.wp_scale
        = fitScale wOrig.wp_mode desk1 wOrig.original_width wOrig.original_height →
        (cycle3 wOrig desk1).wp_scale = wOrig.wp_scale) :=
  C6_cycle wOrig desk1 (by decide)

/-- A free-mode state whose scale already equals the height-fit value of
`desk1` (100/100 = 1). -/
def wFree1 : Wallpaper :=
  { original_width := 200, original_height := 100, wp_scale := 1,
    wpx := 0, wpy := 0, wp_mode := ScaleMode.FREE,
    starting_loc := none, last_loc := none }

/-- Claim C10 fails in its last part: from FREE mode with scale 1 on a
desktop whose height-fit value is also 1, three right-button cycles land on
scale 100/100 = 1, which IS the starting value. -/
theorem C10_counterexample :
    wFree1.wp_mode = ScaleMode.FREE
    ∧ (cycle3 wFree1 desk1).wp_scale = wFree1.wp_scale := by
  refine ⟨rfl, ?_⟩
  simp [cycle3, mousePressRight, wFree1, desk1, mon0,
    Desktop.height, maxList]

/-- Claim C10 (amended): from FREE mode a single right-button press
re-enters the fit cycle at ORIGINAL with scale 1 (not at FIT_WIDTH), and
three presses land on HEIGHT mode with scale `desktop.height /
original_height`, so the scale does not return to its starting value unless
it already equalled that height-fit value. -/
theorem C10_free_reenters (w : Wallpaper) (d : Desktop)
    (h : w.wp_mode = ScaleMode.FREE) :
    (mousePressRight w d).wp_mode = ScaleMode.ORIGINAL
    ∧ (mousePressRight w d).wp_scale = 1
    ∧ (cycle3 w d).wp_mode = ScaleMode.HEIGHT
    ∧ (cycle3 w d).wp_scale = (d.height : ℚ) / (w.original_height : ℚ)
    ∧ (w.wp_scale ≠ (d.height : ℚ) / (w.original_height : ℚ) →
        (cycle3 w d).wp_scale ≠ w.wp_scale) := by
  refine ⟨?_, ?_, ?_, ?_, ?_⟩ <;>
    simp [cycle3, mousePressRight, h]
  intro hne heq
  exact hne heq.symm

/-- Witness for C10 (amended) at the FREE-mode state with scale 2. -/
theorem C10_free_reenters_witness :
    (mousePressRight wFree desk1).wp_mode = ScaleMode.ORIGINAL
    ∧ (mousePressRight wFree desk1).wp_scale = 1
    ∧ (cycle3 wFree desk1).wp_mode = ScaleMode.HEIGHT
    ∧ (cycle3 wFree desk1).wp_scale
        = (desk1.height : ℚ) / (wFree.original_height : ℚ)
    ∧ (wFree.wp_scale ≠ (desk1.height : ℚ) / (wFree.original_height : ℚ) →
        (cycle3 wFree desk1).wp_scale ≠ wFree.wp_scale) :=
  C10_free_reenters wFree desk1 rfl

end SwaySplit
